import Mathlib

/-!
Shallow embedding of the GGML terminate-handler installer found in
src/ggml/src/ggml.cpp: the RAII class GgmlTerminateHandler, its
constructor and destructor, the static member s_previous_handler, and
the body of the static custom_terminate_handler, together with the
process-wide terminate-handler slot they read and write.
-/

/-- Values the process-wide terminate-handler slot can hold: the null
sentinel (nullptr), the private custom handler of this translation unit
(GgmlTerminateHandler::custom_terminate_handler), or any other handler
owned by the host program, indexed by a natural number. -/
inductive Handler where
  | null : Handler
  | custom : Handler
  | other : Nat → Handler
  deriving DecidableEq, Repr

/-- Process-wide state touched by GgmlTerminateHandler: the active
terminate-handler slot (read by std::get_terminate, written by
std::set_terminate) and the static member s_previous_handler. -/
structure GgmlState where
  terminate_slot : Handler
  s_previous_handler : Handler
  deriving DecidableEq, Repr

/-- Observable events of one execution of the hook body:
ggml_print_backtrace was invoked, a handler value was invoked, or
abort was invoked. -/
inductive Event where
  | backtraceCall : Event
  | handlerCall : Handler → Event
  | abortCall : Event
  deriving DecidableEq, Repr

/-- How one execution of the hook body ended: the process was
terminated, a failure was raised out of the body, or control returned
to the caller normally. -/
inductive Result where
  | terminated : Result
  | raised : Result
  | returnedControl : Result
  deriving DecidableEq, Repr

/-- The three statements of custom_terminate_handler, one per source
line: call ggml_print_backtrace, call s_previous_handler if non-null,
call abort as the fallback. -/
inductive Stmt where
  | reportBacktrace : Stmt
  | chainPrevious : Stmt
  | abortFallback : Stmt

/-- Outcome of one execution of the hook body: how it ended, the
events it performed in order, and the process-wide state afterwards. -/
structure HookRun where
  result : Result
  events : List Event
  state : GgmlState
  deriving DecidableEq, Repr

/-- Number of invocations of the handler value g recorded in an event
list. -/
def countHandlerCalls (g : Handler) : List Event → Nat
  | [] => 0
  | Event.handlerCall h :: rest =>
    (if h = g then 1 else 0) + countHandlerCalls g rest
  | _ :: rest => countHandlerCalls g rest

namespace GgmlTerminateHandler

/-- Initial value of the static member s_previous_handler (the source
initializes it to nullptr at file scope). -/
def s_previous_handler_init : Handler := Handler.null

/-- The constructor GgmlTerminateHandler::GgmlTerminateHandler as a
transformer of the process-wide state. The boolean argument records
whether getenv("GGML_NO_BACKTRACE") returned non-null. Following the
source, when not opted out it first stores the current slot value into
s_previous_handler, then returns early if that value is already the
custom handler, and otherwise overwrites the slot with the custom
handler. -/
def construct (ggml_no_backtrace : Bool) (s : GgmlState) : GgmlState :=
  if ggml_no_backtrace then s
  else
    let s1 : GgmlState := { s with s_previous_handler := s.terminate_slot }
    if s1.s_previous_handler = Handler.custom then s1
    else { s1 with terminate_slot := Handler.custom }

/-- The destructor: restore s_previous_handler into the slot only if
the slot still holds the custom handler; otherwise do nothing. -/
def destruct (s : GgmlState) : GgmlState :=
  if s.terminate_slot = Handler.custom then
    { s with terminate_slot := s.s_previous_handler }
  else s

/-- Some other party in the process writing the active
terminate-handler slot via std::set_terminate. -/
def set_terminate_external (h : Handler) (s : GgmlState) : GgmlState :=
  { s with terminate_slot := h }

/-- Execute a list of hook-body statements from a given state.
reporterRaises records whether ggml_print_backtrace raises a failure
when invoked (the call in the source sits in no try block, so a raise
leaves the body at once); prevReturns records, for each handler value,
whether invoking it returns control to its caller (a handler that does
not return terminates the process). abort never returns. None of the
statements writes the state. -/
def execStmts (reporterRaises : Bool) (prevReturns : Handler → Bool) :
    List Stmt → GgmlState → HookRun
  | [], s => ⟨Result.returnedControl, [], s⟩
  | Stmt.reportBacktrace :: rest, s =>
    if reporterRaises then ⟨Result.raised, [Event.backtraceCall], s⟩
    else
      let r := execStmts reporterRaises prevReturns rest s
      ⟨r.result, Event.backtraceCall :: r.events, r.state⟩
  | Stmt.chainPrevious :: rest, s =>
    if s.s_previous_handler = Handler.null then
      execStmts reporterRaises prevReturns rest s
    else if prevReturns s.s_previous_handler then
      let r := execStmts reporterRaises prevReturns rest s
      ⟨r.result, Event.handlerCall s.s_previous_handler :: r.events, r.state⟩
    else
      ⟨Result.terminated, [Event.handlerCall s.s_previous_handler], s⟩
  | Stmt.abortFallback :: _, s => ⟨Result.terminated, [Event.abortCall], s⟩

/-- Body of custom_terminate_handler: print the backtrace, chain to
the saved previous handler if non-null, abort as the fallback. -/
def custom_terminate_handler : List Stmt :=
  [Stmt.reportBacktrace, Stmt.chainPrevious, Stmt.abortFallback]

/-- One triggering of the fatal-failure path with the custom handler
installed: run the body of custom_terminate_handler. -/
def runHook (reporterRaises : Bool) (prevReturns : Handler → Bool)
    (s : GgmlState) : HookRun :=
  execStmts reporterRaises prevReturns custom_terminate_handler s

end GgmlTerminateHandler

open GgmlTerminateHandler

/-- Helper: with a non-raising reporter and a null saved handler, the
hook body prints the backtrace, skips the chain, and aborts. -/
theorem runHook_eq_of_null (pr : Handler → Bool) (s : GgmlState)
    (h : s.s_previous_handler = Handler.null) :
    runHook false pr s =
      ⟨Result.terminated, [Event.backtraceCall, Event.abortCall], s⟩ := by
  simp [runHook, custom_terminate_handler, execStmts, h]

/-- Helper: with a non-raising reporter and a non-null saved handler
that returns control, the hook body prints the backtrace, invokes the
saved handler, and aborts. -/
theorem runHook_eq_of_returns (pr : Handler → Bool) (s : GgmlState)
    (h : s.s_previous_handler ≠ Handler.null)
    (h2 : pr s.s_previous_handler = true) :
    runHook false pr s =
      ⟨Result.terminated,
        [Event.backtraceCall, Event.handlerCall s.s_previous_handler,
          Event.abortCall], s⟩ := by
  simp [runHook, custom_terminate_handler, execStmts, h, h2]

/-- Helper: with a non-raising reporter and a non-null saved handler
that does not return, the hook body prints the backtrace and invokes
the saved handler, which terminates the process. -/
theorem runHook_eq_of_noreturn (pr : Handler → Bool) (s : GgmlState)
    (h : s.s_previous_handler ≠ Handler.null)
    (h2 : pr s.s_previous_handler = false) :
    runHook false pr s =
      ⟨Result.terminated,
        [Event.backtraceCall, Event.handlerCall s.s_previous_handler],
        s⟩ := by
  simp [runHook, custom_terminate_handler, execStmts, h, h2]

/-- C1: with the Backtrace Reporter keeping its no-raise contract, for
every state of the saved previous handler (null, present and
terminating, or present and returning control) every execution of the
hook body ends in process termination and never returns control to its
caller; whenever the saved previous handler is absent or returns,
abort is invoked. -/
theorem hook_body_never_returns (pr : Handler → Bool) (s : GgmlState) :
    (runHook false pr s).result = Result.terminated ∧
    ((s.s_previous_handler = Handler.null ∨ pr s.s_previous_handler = true) →
      Event.abortCall ∈ (runHook false pr s).events) := by
  by_cases hn : s.s_previous_handler = Handler.null
  · rw [runHook_eq_of_null pr s hn]
    exact ⟨rfl, fun _ => by simp⟩
  · cases hpr : pr s.s_previous_handler
    · rw [runHook_eq_of_noreturn pr s hn hpr]
      refine ⟨rfl, ?_⟩
      rintro (hc | hc)
      · exact absurd hc hn
      · exact absurd hc (by decide)
    · rw [runHook_eq_of_returns pr s hn hpr]
      exact ⟨rfl, fun _ => by simp⟩

/-- Witness for C1 at a concrete state with a returning saved
handler. -/
theorem hook_body_never_returns_witness :
    (runHook false (fun _ => true)
        ⟨Handler.custom, Handler.other 0⟩).result = Result.terminated ∧
    Event.abortCall ∈ (runHook false (fun _ => true)
        ⟨Handler.custom, Handler.other 0⟩).events :=
  ⟨(hook_body_never_returns (fun _ => true)
      ⟨Handler.custom, Handler.other 0⟩).1,
    (hook_body_never_returns (fun _ => true)
      ⟨Handler.custom, Handler.other 0⟩).2 (Or.inr rfl)⟩

/-- C2 is falsified by the code: starting from host handler other 0,
the first construction saves other 0, but a second construction while
installed overwrites s_previous_handler with the custom handler itself
before the identity check returns early; the next fatal event then
invokes the custom handler from inside itself. -/
theorem second_construct_corrupts_saved_handler :
    (construct false ⟨Handler.other 0, Handler.null⟩).s_previous_handler
        = Handler.other 0 ∧
    (construct false (construct false
        ⟨Handler.other 0, Handler.null⟩)).s_previous_handler
        = Handler.custom ∧
    Event.handlerCall Handler.custom ∈
      (runHook false (fun _ => true)
        (construct false (construct false
          ⟨Handler.other 0, Handler.null⟩))).events := by
  decide

/-- C3: with the opt-out flag unset, constructing from any state
installs the custom handler, and destructing while it is still
installed restores the slot to the exact value it held immediately
before construction. -/
theorem restore_correctness (s : GgmlState) :
    (construct false s).terminate_slot = Handler.custom ∧
    (destruct (construct false s)).terminate_slot = s.terminate_slot := by
  by_cases h : s.terminate_slot = Handler.custom <;>
    simp [construct, destruct, h]

/-- C4: if after installation some other party sets the slot to a
handler b distinct from the custom handler, the destructor performs no
write: the whole state, slot included, is unchanged by destruction. -/
theorem clobber_avoidance (s : GgmlState) (b : Handler)
    (h : b ≠ Handler.custom) :
    destruct (set_terminate_external b (construct false s)) =
      set_terminate_external b (construct false s) := by
  simp [destruct, set_terminate_external, h]

/-- Witness for C4 at a concrete state and handler. -/
theorem clobber_avoidance_witness :
    Handler.other 1 ≠ Handler.custom ∧
    destruct (set_terminate_external (Handler.other 1)
        (construct false ⟨Handler.null, Handler.null⟩)) =
      set_terminate_external (Handler.other 1)
        (construct false ⟨Handler.null, Handler.null⟩) :=
  ⟨by decide, clobber_avoidance ⟨Handler.null, Handler.null⟩
    (Handler.other 1) (by decide)⟩

/-- C5: with GGML_NO_BACKTRACE set before construction, construction
leaves the whole state unchanged (slot untouched, no previous handler
recorded) and the following destruction leaves it unchanged as well.
The hypothesis records that before construction the slot cannot hold
the custom handler, which is private to the translation unit and not
yet installed. -/
theorem opt_out_noop (s : GgmlState)
    (h : s.terminate_slot ≠ Handler.custom) :
    construct true s = s ∧ destruct (construct true s) = s := by
  refine ⟨rfl, ?_⟩
  simp [construct, destruct, h]

/-- Witness for C5 at a concrete state. -/
theorem opt_out_noop_witness :
    construct true ⟨Handler.other 0, Handler.null⟩
        = ⟨Handler.other 0, Handler.null⟩ ∧
    destruct (construct true ⟨Handler.other 0, Handler.null⟩)
        = ⟨Handler.other 0, Handler.null⟩ :=
  opt_out_noop ⟨Handler.other 0, Handler.null⟩ (by decide)

/-- C6: with a non-raising reporter, whenever the saved previous
handler is non-null, one execution of the hook body invokes exactly
that handler exactly once, whether or not the invocation returns. -/
theorem chain_once (pr : Handler → Bool) (s : GgmlState)
    (h : s.s_previous_handler ≠ Handler.null) :
    countHandlerCalls s.s_previous_handler (runHook false pr s).events
      = 1 := by
  cases hpr : pr s.s_previous_handler
  · rw [runHook_eq_of_noreturn pr s h hpr]
    simp [countHandlerCalls]
  · rw [runHook_eq_of_returns pr s h hpr]
    simp [countHandlerCalls]

/-- Witness for C6 at a concrete state with a non-returning saved
handler. -/
theorem chain_once_witness :
    countHandlerCalls (Handler.other 2)
      (runHook false (fun _ => false)
        ⟨Handler.custom, Handler.other 2⟩).events = 1 :=
  chain_once (fun _ => false) ⟨Handler.custom, Handler.other 2⟩
    (by decide)

/-- C7: with a non-raising reporter, the events of one hook-body
execution are exactly: the backtrace call first, then the saved
previous handler call when one is recorded, then the abort fallback
when the chain step is skipped or returns — in this fixed order. -/
theorem hook_body_order (pr : Handler → Bool) (s : GgmlState) :
    (runHook false pr s).events =
      [Event.backtraceCall] ++
        (if s.s_previous_handler = Handler.null then []
          else [Event.handlerCall s.s_previous_handler]) ++
        (if s.s_previous_handler = Handler.null ∨
            pr s.s_previous_handler = true
          then [Event.abortCall] else []) := by
  by_cases hn : s.s_previous_handler = Handler.null
  · rw [runHook_eq_of_null pr s hn]
    simp [hn]
  · cases hpr : pr s.s_previous_handler
    · rw [runHook_eq_of_noreturn pr s hn hpr]
      simp [hn, hpr]
    · rw [runHook_eq_of_returns pr s hn hpr]
      simp [hn, hpr]

/-- C8 as stated is false on the code: at a concrete state whose saved
previous handler is other 0, if the Backtrace Reporter raises, the
failure is not swallowed inside the hook body — the body ends with the
failure raised, and neither the saved previous handler nor abort is
invoked. -/
theorem reporter_failure_not_swallowed_cex :
    (runHook true (fun _ => true)
        ⟨Handler.custom, Handler.other 0⟩).result = Result.raised ∧
    Event.handlerCall (Handler.other 0) ∉
      (runHook true (fun _ => true)
        ⟨Handler.custom, Handler.other 0⟩).events ∧
    Event.abortCall ∉
      (runHook true (fun _ => true)
        ⟨Handler.custom, Handler.other 0⟩).events := by
  decide

/-- C8 amended: the hook body contains no layer that swallows Reporter
failures; if the Backtrace Reporter raises, the failure propagates out
of the hook body from every state, and neither the saved previous
handler nor the abort fallback is reached. Non-propagation is an
obligation on the Reporter itself. -/
theorem reporter_failure_propagates (pr : Handler → Bool)
    (s : GgmlState) :
    runHook true pr s = ⟨Result.raised, [Event.backtraceCall], s⟩ := by
  rfl

/-- C9: with a non-raising reporter, when the saved previous handler
is the null sentinel the hook body invokes no handler value at all and
still reaches the abort fallback. -/
theorem null_previous_never_called (pr : Handler → Bool) (s : GgmlState)
    (h : s.s_previous_handler = Handler.null) :
    (∀ g : Handler,
      Event.handlerCall g ∉ (runHook false pr s).events) ∧
    Event.abortCall ∈ (runHook false pr s).events := by
  rw [runHook_eq_of_null pr s h]
  simp

/-- Witness for C9 at a concrete state with a null saved handler. -/
theorem null_previous_never_called_witness :
    Event.handlerCall Handler.null ∉
      (runHook false (fun _ => true)
        ⟨Handler.custom, Handler.null⟩).events ∧
    Event.abortCall ∈
      (runHook false (fun _ => true)
        ⟨Handler.custom, Handler.null⟩).events :=
  ⟨(null_previous_never_called (fun _ => true)
      ⟨Handler.custom, Handler.null⟩ rfl).1 Handler.null,
    (null_previous_never_called (fun _ => true)
      ⟨Handler.custom, Handler.null⟩ rfl).2⟩

/-- C10: s_previous_handler is written only by the constructor — the
destructor leaves it unchanged in every state, and the hook body never
writes the process-wide state at all, for every reporter behavior and
every previous-handler behavior. -/
theorem saved_handler_frame (s : GgmlState) (rr : Bool)
    (pr : Handler → Bool) :
    (destruct s).s_previous_handler = s.s_previous_handler ∧
    (runHook rr pr s).state = s := by
  constructor
  · by_cases h : s.terminate_slot = Handler.custom <;>
      simp [destruct, h]
  · cases rr
    · by_cases hn : s.s_previous_handler = Handler.null
      · rw [runHook_eq_of_null pr s hn]
      · cases hpr : pr s.s_previous_handler
        · rw [runHook_eq_of_noreturn pr s hn hpr]
        · rw [runHook_eq_of_returns pr s hn hpr]
    · rfl
